import Mathlib

/-!
Shallow embedding of the query-plan executor of `src/app.py`
(Scriptlink_Chatbot_Flask): the value normalizer `clean_filter_value`,
the filter evaluation inside `execute_query_plan`, the conversation-context
bookkeeping (`LAST_SUCCESSFUL_PLAN_CONTEXT`, `LAST_PRIMARY_ENTITY_CONTEXT`,
passed here as explicit state), and the three operations
(`filter_and_list`, `count_items`, `list_unique_values`).

Modelling conventions:
- A pandas DataFrame is a list of rows over a fixed column list; a cell is a
  string, an integer, or missing (NaN).  `astype(str)` renders a missing cell
  as the text "nan" and an integer in decimal, as pandas does.
- Python dict values that may be absent are `Option`; Python truthiness of a
  string/option is `s ≠ ""` on present strings.
- `pd.Series.str.contains(value, case=False, na=False)` is modelled as
  case-insensitive substring search (the source routes the value through the
  regex engine; for metacharacter-free values this coincides).
- The executor's error returns are modelled as a structured `FilterErr`
  rendered to the exact message strings of the source by `errText`.
- Python string primitives (`lower`, `strip`, `endswith`, slicing,
  `capitalize`, `replace`, comparison) are implemented over `String.data`
  character lists (`pyLower`, `pyTrim`, ...), ASCII-faithful and
  kernel-reducible.
-/

/-- A single table cell: string, integer, or missing (NaN). -/
inductive Cell where
  | cstr (s : String)
  | cnum (n : Int)
  | cnone
deriving DecidableEq, Repr

/-- A loosely-typed plan value (JSON string, number, or null/absent). -/
inductive Val where
  | vstr (s : String)
  | vnum (n : Int)
  | vnone
deriving DecidableEq, Repr

/-- A row: association list from actual column name to cell. -/
abbrev Row := List (String × Cell)

/-- The table: column headers plus rows (pandas DataFrame post-load). -/
structure DF where
  cols : List String
  rows : List Row
deriving DecidableEq, Repr

/-- Alias map output: conceptual name → actual column name (`COLUMN_MAP`). -/
abbrev ColumnMap := List (String × String)

/-- One filter of a plan, as produced by the plan generator. -/
structure QFilter where
  column_conceptual_name : Option String
  match_type : Option String
  value : Val
deriving DecidableEq, Repr

/-- A query plan (the JSON object handed to `execute_query_plan`). -/
structure Plan where
  is_answerable : Bool
  reason_if_not_answerable : Option String
  operation : Option String
  filters : List QFilter
  display_columns_conceptual : Option (List String)
  count_target_conceptual : Option String
  count_distinct : Bool
  list_unique_target_conceptual : Option String
deriving DecidableEq, Repr

/-- The primary-entity context `{'type': ..., 'value': ...}`. -/
structure Entity where
  etype : String
  evalue : Val
deriving DecidableEq, Repr

/-- Conversation context: `LAST_SUCCESSFUL_PLAN_CONTEXT` and
`LAST_PRIMARY_ENTITY_CONTEXT`, passed as explicit state. -/
structure Ctx where
  lastPlan : Option Plan
  lastEntity : Option Entity
deriving DecidableEq, Repr

/-- An executor reply: `{"type": "text"|"html", "content": ...}`.  The
source's `"html"` reply (a rendered row/column grid with header) is the
`table` constructor; rendering to an HTML string is abstracted away. -/
inductive QueryResult where
  | text (content : String)
  | table (header : List String) (rows : List (List Cell))
deriving DecidableEq, Repr

/-- Structured executor failure; `errText` renders the source's messages. -/
inductive FilterErr where
  | unsupportedMatchType (mt : String)
  | columnNotMapped (concept : Option String)
  | missingValue (concept : Option String)
  | columnNotInDF (actual : String)
deriving DecidableEq, Repr

deriving instance DecidableEq for Except

/-- Python `f"{x}"` on an optional string (absent key prints as `None`). -/
def optShow (o : Option String) : String := o.getD "None"

/-- Exact error message strings of `execute_query_plan`. -/
def errText : FilterErr → String
  | .unsupportedMatchType mt => "Unsupported match_type: '" ++ mt ++ "'."
  | .columnNotMapped c => "Filter Error: Conceptual column '" ++ optShow c ++ "' not mapped."
  | .missingValue c => "Filter Error: No value for filtering '" ++ optShow c ++ "'."
  | .columnNotInDF a => "Filter Error: Mapped column '" ++ a ++ "' not in DataFrame."

/-- Python truthiness of a plan value (`"" `, `0`, `None` are falsy). -/
def pyTruthyVal : Val → Bool
  | .vstr s => decide (s ≠ "")
  | .vnum n => decide (n ≠ 0)
  | .vnone => false

/-- Python truthiness of an optional string field. -/
def optTruthy : Option String → Bool
  | none => false
  | some s => decide (s ≠ "")

/-- `str(...)` coercion of a plan value. -/
def valToStr : Val → String
  | .vstr s => s
  | .vnum n => toString n
  | .vnone => "None"

/-- `astype(str)` coercion of a cell: pandas renders NaN as "nan". -/
def cellToStr : Cell → String
  | .cstr s => s
  | .cnum n => toString n
  | .cnone => "nan"

/-- Cell of row `r` in column `c` (missing key reads as NaN). -/
def getCell (r : Row) (c : String) : Cell := (List.lookup c r).getD Cell.cnone

/-- The column `c` of a list of rows, as a list of cells. -/
def colCells (rows : List Row) (c : String) : List Cell :=
  rows.map (fun r => getCell r c)

/-- `dropna()`: keep only non-missing cells. -/
def nonMissing (cells : List Cell) : List Cell :=
  cells.filter (fun c => decide (c ≠ Cell.cnone))

/-- Python `str.lower` (ASCII case folding, per character). -/
def pyLower (s : String) : String := ⟨s.data.map Char.toLower⟩

/-- Python `str.strip`: drop leading and trailing whitespace. -/
def pyTrim (s : String) : String :=
  ⟨((s.data.dropWhile Char.isWhitespace).reverse.dropWhile Char.isWhitespace).reverse⟩

/-- Python `str.endswith`. -/
def pyEndsWith (s suffix : String) : Bool :=
  List.isPrefixOf suffix.data.reverse s.data.reverse

/-- Python slicing `s[:-n]`: drop the last `n` characters. -/
def pyDropRight (s : String) (n : Nat) : String := ⟨s.data.take (s.data.length - n)⟩

/-- Code-point lexicographic strict order on character lists. -/
def charListLt : List Char → List Char → Bool
  | [], [] => false
  | [], _ :: _ => true
  | _ :: _, [] => false
  | a :: as, b :: bs =>
    if a.toNat < b.toNat then true
    else if b.toNat < a.toNat then false
    else charListLt as bs

/-- Python string comparison `a <= b` (code-point lexicographic). -/
def pyStrLe (a b : String) : Bool := !(charListLt b.data a.data)

/-- Python `str.replace` worker: substitute each non-overlapping occurrence
of `pat` (left to right, `pat` nonempty) by `rep`. -/
def replaceAux (pat rep : List Char) : List Char → List Char
  | [] => []
  | c :: cs =>
    if List.isPrefixOf pat (c :: cs) ∧ pat ≠ [] then
      rep ++ replaceAux pat rep (cs.drop (pat.length - 1))
    else c :: replaceAux pat rep cs
termination_by l => l.length
decreasing_by
  · simp only [List.length_cons, List.length_drop]
    omega
  · simp only [List.length_cons]
    omega

/-- Python `str.replace` for a nonempty pattern. -/
def pyReplace (s pat rep : String) : String := ⟨replaceAux pat.data rep.data s.data⟩

/-- First-occurrence deduplication, as `pandas.Series.unique`. -/
def pdUniqueAux {α : Type} [DecidableEq α] : List α → List α → List α
  | [], _ => []
  | x :: xs, seen => if x ∈ seen then pdUniqueAux xs seen else x :: pdUniqueAux xs (x :: seen)

/-- `pandas.Series.unique`: distinct values in first-occurrence order. -/
def pdUnique {α : Type} [DecidableEq α] (l : List α) : List α := pdUniqueAux l []

/-- Insert into a sorted list of strings (helper for `pySorted`). -/
def insertSorted (x : String) : List String → List String
  | [] => [x]
  | y :: ys => if pyStrLe x y then x :: y :: ys else y :: insertSorted x ys

/-- Python `sorted` on strings (code-point lexicographic insertion sort). -/
def pySorted (l : List String) : List String := l.foldr insertSorted []

/-- Does `pat` occur as a contiguous sublist of the second argument? -/
def hasSubList (pat : List Char) : List Char → Bool
  | [] => pat.isEmpty
  | c :: rest => List.isPrefixOf pat (c :: rest) || hasSubList pat rest

/-- Case-insensitive substring test: does `hay` contain `pat`? -/
def strContainsCI (hay pat : String) : Bool :=
  hasSubList (pyLower pat).data (pyLower hay).data

/-- `clean_filter_value` (src/app.py:275-284): non-strings pass through;
strings are lower-cased, stripped, and at most one of the suffixes
" form", " note", " script" (tested in that order) is removed. -/
def clean_filter_value : Val → Val
  | Val.vstr s0 =>
    let s := pyTrim (pyLower s0)
    if pyEndsWith s " form" then Val.vstr (pyDropRight s 5)
    else if pyEndsWith s " note" then Val.vstr (pyDropRight s 5)
    else if pyEndsWith s " script" then Val.vstr (pyDropRight s 7)
    else Val.vstr s
  | v => v

/-- Normalized match type: default "contains" when the key is absent,
lower-cased, with "equals" aliased to "exact" (src/app.py:317-319). -/
def effMatchType (f : QFilter) : String :=
  if pyLower (f.match_type.getD "contains") = "equals" then "exact"
  else pyLower (f.match_type.getD "contains")

/-- Row predicate of one filter (src/app.py:338-345): comparison of the
`astype(str)` cell text against the cleaned value, case-insensitive. -/
def rowMatches (mt : String) (actual : String) (v : Val) (r : Row) : Bool :=
  if mt = "exact" then pyLower (cellToStr (getCell r actual)) == pyLower (valToStr v)
  else if mt = "contains" then strContainsCI (cellToStr (getCell r actual)) (valToStr v)
  else if mt = "not_exact" then pyLower (cellToStr (getCell r actual)) != pyLower (valToStr v)
  else false

/-- One iteration of the filter loop of `execute_query_plan`
(src/app.py:314-348): match-type check first, then value cleaning, the
unmapped-column check (Python truthiness: an empty mapped name is also
"not mapped"), the missing-value check, the column-presence check, and
finally the row filtering. -/
def applyFilter (m : ColumnMap) (cols : List String) (rows : List Row) (f : QFilter) :
    Except FilterErr (List Row) :=
  let actualOpt := f.column_conceptual_name.bind (fun c => List.lookup c m)
  let mt := effMatchType f
  if ¬ (mt = "exact" ∨ mt = "contains" ∨ mt = "not_exact") then
    .error (.unsupportedMatchType mt)
  else
    let v := clean_filter_value f.value
    match actualOpt with
    | none => .error (.columnNotMapped f.column_conceptual_name)
    | some actual =>
      if actual = "" then .error (.columnNotMapped f.column_conceptual_name)
      else if v = Val.vnone then .error (.missingValue f.column_conceptual_name)
      else if actual ∉ cols then .error (.columnNotInDF actual)
      else .ok (rows.filter (fun r => rowMatches mt actual v r))

/-- The filter loop: apply each filter in plan order to the working rows,
short-circuiting on the first failure. -/
def filterAll (m : ColumnMap) (cols : List String) : List Row → List QFilter → Except FilterErr (List Row)
  | rows, [] => .ok rows
  | rows, f :: fs =>
    match applyFilter m cols rows f with
    | .error e => .error e
    | .ok rows2 => filterAll m cols rows2 fs

/-- The tentative primary entity taken from the first filter
(src/app.py:305-312): present only when the first filter's raw value and
conceptual name are both truthy. -/
def candidateOf (plan : Plan) : Option Entity :=
  match plan.filters with
  | [] => none
  | f0 :: _ =>
    if pyTruthyVal f0.value && optTruthy f0.column_conceptual_name then
      some ⟨f0.column_conceptual_name.getD "", f0.value⟩
    else none

/-- Precedence rules for the next primary entity on a successful
(non-empty) query (src/app.py:365-399): (1) the single distinct
non-missing script of a `filter_and_list` result; (2) the first-filter
candidate; (3) a sentinel entity for `count_items` / unfiltered
`list_unique_values`. -/
def newPrimaryContext (m : ColumnMap) (df : DF) (plan : Plan) (fr : List Row) : Option Entity :=
  let step1 : Option Entity :=
    if plan.operation = some "filter_and_list" then
      match List.lookup "script_name_conceptual" m with
      | some a =>
        if a ≠ "" ∧ a ∈ df.cols then
          match pdUnique (nonMissing (colCells fr a)) with
          | [c] => some ⟨"script_name_conceptual", Val.vstr (cellToStr c)⟩
          | _ => none
        else none
      | none => none
    else none
  match step1 with
  | some e => some e
  | none =>
    match candidateOf plan with
    | some e => some e
    | none =>
      if plan.operation = some "count_items" ∧ optTruthy plan.count_target_conceptual then
        some ⟨plan.count_target_conceptual.getD "", Val.vstr "items previously counted"⟩
      else if plan.operation = some "list_unique_values" ∧ plan.filters = [] ∧
          optTruthy plan.list_unique_target_conceptual then
        some ⟨plan.list_unique_target_conceptual.getD "", Val.vstr "all unique values listed"⟩
      else none

/-- The fixed default display list `DEFAULT_DISPLAY_COLUMNS_CONCEPTUAL`. -/
def DEFAULT_DISPLAY_COLUMNS_CONCEPTUAL : List String :=
  ["script_name_conceptual", "form_name_conceptual", "field_name_conceptual",
   "service_name_conceptual", "namespace_conceptual"]

/-- Display-column resolution of `filter_and_list` (src/app.py:410-417):
requested conceptual names mapped and present (and truthy) in order, then
the two fallbacks of the source. -/
def displayActualCols (m : ColumnMap) (df : DF) (plan : Plan) (fr : List Row) : List String :=
  let displayConcepts := plan.display_columns_conceptual.getD DEFAULT_DISPLAY_COLUMNS_CONCEPTUAL
  let d1 := displayConcepts.filterMap (fun c =>
    match List.lookup c m with
    | some a => if a ≠ "" ∧ a ∈ df.cols then some a else none
    | none => none)
  if d1 = [] ∧ fr ≠ [] then
    let d2 := df.cols.filter (fun col => decide (col ∈ m.map Prod.snd))
    if d2 = [] then df.cols else d2
  else d1

/-- Python `str.capitalize`: first character upper-cased, rest lowered. -/
def pyCapitalize (s : String) : String :=
  match s.data with
  | [] => ""
  | c :: cs => ⟨c.toUpper :: cs.map Char.toLower⟩

/-- Operation dispatch of `execute_query_plan` (src/app.py:409-482), run on
the non-empty filtered rows `fr` after context bookkeeping. -/
def runOperation (df : DF) (m : ColumnMap) (plan : Plan) (fr : List Row) : QueryResult :=
  if plan.operation = some "filter_and_list" then
    let dcols := displayActualCols m df plan fr
    if fr ≠ [] ∧ dcols ≠ [] then
      .table dcols (pdUnique (fr.map (fun r => dcols.map (fun col => getCell r col))))
    else if fr = [] then .text "No data found."
    else .text "Data found, but no valid columns to display."
  else if plan.operation = some "count_items" then
    if fr ≠ [] then
      if ¬ optTruthy plan.count_target_conceptual then
        .text ("Found " ++ toString fr.length ++ " records matching your criteria.")
      else
        match List.lookup (plan.count_target_conceptual.getD "") m with
        | none =>
          .text ("Count Error: Target column '" ++ optShow plan.count_target_conceptual ++
            "' not mapped/found.")
        | some a =>
          if a = "" ∨ a ∉ df.cols then
            .text ("Count Error: Target column '" ++ optShow plan.count_target_conceptual ++
              "' not mapped/found.")
          else if plan.count_distinct then
            let count := (pdUnique (nonMissing (colCells fr a))).length
            let ename0 := pyCapitalize (pyReplace (pyReplace
              (plan.count_target_conceptual.getD "") "_conceptual" "") "_name" "") ++ "s"
            let ename := if count = 1 then pyDropRight ename0 1 else ename0
            .text ("Found " ++ toString count ++ " distinct " ++ ename ++ " (" ++ a ++
              ") matching your criteria.")
          else
            let count := (nonMissing (colCells fr a)).length
            let ename := pyCapitalize (pyReplace (pyReplace
              (plan.count_target_conceptual.getD "") "_conceptual" "") "_name" "")
            .text ("Found " ++ toString count ++ " items/records where '" ++ ename ++ "' (" ++
              a ++ ") is present, matching criteria.")
    else .text "No data to count matching your criteria."
  else if plan.operation = some "list_unique_values" then
    match plan.list_unique_target_conceptual.bind (fun c => List.lookup c m) with
    | none =>
      .text ("List Unique Error: Target column '" ++
        optShow plan.list_unique_target_conceptual ++ "' not mapped.")
    | some a =>
      if a = "" ∨ a ∉ df.cols then
        .text ("List Unique Error: Target column '" ++
          optShow plan.list_unique_target_conceptual ++ "' not mapped.")
      else
        let rowsrc := if plan.filters ≠ [] ∧ fr ≠ [] then fr else df.rows
        if rowsrc ≠ [] then
          if a ∉ df.cols then
            .text ("List Unique Error: Column '" ++ a ++ "' not in data for unique values.")
          else
            .text ("Unique values for '" ++ a ++ "':\n" ++ String.intercalate "\n"
              (pySorted ((pdUnique (nonMissing (colCells rowsrc a))).map cellToStr)))
        else .text ("No data to list unique values for '" ++ a ++ "'.")
  else .text ("Unsupported operation: '" ++ optShow plan.operation ++ "'.")

/-- `execute_query_plan` (src/app.py:287-482) with the two global context
variables passed in and out explicitly. -/
def execute_query_plan (dfOpt : Option DF) (mOpt : Option ColumnMap) (plan : Plan)
    (ctx : Ctx) : QueryResult × Ctx :=
  match dfOpt, mOpt with
  | some df, some m =>
    if plan.is_answerable = false then
      (.text ("I cannot answer that. Reason: " ++
        plan.reason_if_not_answerable.getD "AI determined it is not answerable."), ctx)
    else
      match filterAll m df.cols df.rows plan.filters with
      | .error e => (.text (errText e), ctx)
      | .ok fr =>
        if fr = [] then
          (.text "No data found matching your specified filter criteria.",
           ⟨none, candidateOf plan⟩)
        else
          let entity2 : Option Entity :=
            match newPrimaryContext m df plan fr with
            | some e => some e
            | none => ctx.lastEntity
          (runOperation df m plan fr, ⟨some plan, entity2⟩)
  | _, _ => (.text "DataFrame or column map not loaded.", ctx)

/-- Sample alias map for concrete instances. -/
def sampleMap : ColumnMap :=
  [("form_name_conceptual", "FormName"), ("script_name_conceptual", "ScriptName")]

/-- Sample three-row table; the third row has a missing form cell. -/
def sampleDF : DF :=
  ⟨["FormName", "ScriptName"],
   [[("FormName", Cell.cstr "Patient Demographics"), ("ScriptName", Cell.cstr "ScriptX")],
    [("FormName", Cell.cstr "Progress Note A"), ("ScriptName", Cell.cstr "S1")],
    [("FormName", Cell.cnone), ("ScriptName", Cell.cstr "S2")]]⟩

/-- A table with headers but no rows. -/
def emptyDF : DF := ⟨["FormName"], []⟩

/-- A context holding a primary entity from an earlier turn. -/
def sampleCtx : Ctx := ⟨none, some ⟨"form_name_conceptual", Val.vstr "old"⟩⟩

/-- A plan the generator marked unanswerable. -/
def planNotAnswerable : Plan := ⟨false, some "nope", none, [], none, none, false, none⟩

/-- An answerable plan whose filter matches no row of `sampleDF`. -/
def planZero : Plan :=
  ⟨true, none, some "filter_and_list",
   [⟨some "form_name_conceptual", some "contains", Val.vstr "zzz"⟩], none, none, false, none⟩

/-- An answerable `filter_and_list` plan with no filters. -/
def planNoFilters : Plan := ⟨true, none, some "filter_and_list", [], none, none, false, none⟩

/-- An exact-match plan isolating the `Patient Demographics` row. -/
def planExact : Plan :=
  ⟨true, none, some "filter_and_list",
   [⟨some "form_name_conceptual", some "exact", Val.vstr "Patient Demographics"⟩],
   some ["script_name_conceptual"], none, false, none⟩

/-- An unfiltered `list_unique_values` plan over the script column. -/
def planListUnique : Plan :=
  ⟨true, none, some "list_unique_values", [], none, none, false,
   some "script_name_conceptual"⟩

/-- A filter naming an unmapped conceptual column with a valid match type. -/
def filterBogusExact : QFilter := ⟨some "bogus", some "exact", Val.vstr "x"⟩

/-- A plan carrying `filterBogusExact`. -/
def planBogus : Plan :=
  ⟨true, none, some "filter_and_list", [filterBogusExact], none, none, false, none⟩

/-- C1: for every table, alias map, and plan with `is_answerable = false`,
`execute_query_plan` returns a text result whose content is the fixed
prefix followed by the plan's `reason_if_not_answerable` (or the generic
reason when absent), and the conversation context is returned unchanged. -/
theorem unanswerable_plan_echoes_reason_and_preserves_context
    (df : DF) (m : ColumnMap) (plan : Plan) (ctx : Ctx)
    (h : plan.is_answerable = false) :
    execute_query_plan (some df) (some m) plan ctx =
      (.text ("I cannot answer that. Reason: " ++
        plan.reason_if_not_answerable.getD "AI determined it is not answerable."), ctx) := by
  simp [execute_query_plan, h]

/-- Witness for C1 at a concrete unanswerable plan. -/
theorem unanswerable_plan_echoes_reason_and_preserves_context_witness :
    execute_query_plan (some sampleDF) (some sampleMap) planNotAnswerable sampleCtx =
      (.text "I cannot answer that. Reason: nope", sampleCtx) := by
  have h := unanswerable_plan_echoes_reason_and_preserves_context
    sampleDF sampleMap planNotAnswerable sampleCtx rfl
  exact h.trans (by decide)

/-- C2: for every answerable plan whose filters narrow the working table to
zero rows, the executor returns the fixed "No data found matching your
specified filter criteria." text, clears the last successful plan, and sets
the primary entity to the first-filter candidate exactly when the first
filter has a truthy value and conceptual name, and to `none` otherwise. -/
theorem empty_filter_result_clears_plan_and_sets_candidate
    (df : DF) (m : ColumnMap) (plan : Plan) (ctx : Ctx)
    (ha : plan.is_answerable = true)
    (hf : filterAll m df.cols df.rows plan.filters = .ok []) :
    execute_query_plan (some df) (some m) plan ctx =
      (.text "No data found matching your specified filter criteria.",
       ⟨none, candidateOf plan⟩)
    ∧ (∀ f0 rest, plan.filters = f0 :: rest → pyTruthyVal f0.value = true →
        optTruthy f0.column_conceptual_name = true →
        candidateOf plan = some ⟨f0.column_conceptual_name.getD "", f0.value⟩)
    ∧ (∀ f0 rest, plan.filters = f0 :: rest →
        (pyTruthyVal f0.value = false ∨ optTruthy f0.column_conceptual_name = false) →
        candidateOf plan = none)
    ∧ (plan.filters = [] → candidateOf plan = none) := by
  refine ⟨by simp [execute_query_plan, ha, hf], ?_, ?_, ?_⟩
  · intro f0 rest hfs hv hc
    simp [candidateOf, hfs, hv, hc]
  · intro f0 rest hfs hvc
    rcases hvc with hv | hc
    · simp [candidateOf, hfs, hv]
    · simp [candidateOf, hfs, hc]
  · intro hfs
    simp [candidateOf, hfs]

/-- Witness for C2 at a concrete plan whose filter matches nothing. -/
theorem empty_filter_result_clears_plan_and_sets_candidate_witness :
    execute_query_plan (some sampleDF) (some sampleMap) planZero sampleCtx =
      (.text "No data found matching your specified filter criteria.",
       ⟨none, some ⟨"form_name_conceptual", Val.vstr "zzz"⟩⟩) := by
  have h := (empty_filter_result_clears_plan_and_sets_candidate
    sampleDF sampleMap planZero sampleCtx rfl (by decide)).1
  exact h.trans (by decide)

/-- C3: if the primary-entity context is non-null before a call to
`execute_query_plan` and null afterwards, then the call necessarily took
the empty-filtered-table path with no filter-derived candidate: the plan
was answerable, the filters succeeded yielding zero rows, and the first
filter provided no candidate entity.  No other path nulls the entity. -/
theorem only_empty_no_candidate_path_clears_primary_entity
    (df : DF) (m : ColumnMap) (plan : Plan) (ctx : Ctx)
    (hpre : ctx.lastEntity ≠ none)
    (hnull : (execute_query_plan (some df) (some m) plan ctx).2.lastEntity = none) :
    plan.is_answerable = true ∧ filterAll m df.cols df.rows plan.filters = .ok [] ∧
      candidateOf plan = none := by
  cases ha : plan.is_answerable with
  | false =>
    simp [execute_query_plan, ha] at hnull
    exact absurd hnull hpre
  | true =>
    cases hfa : filterAll m df.cols df.rows plan.filters with
    | error e =>
      simp [execute_query_plan, ha, hfa] at hnull
      exact absurd hnull hpre
    | ok fr =>
      by_cases hfr : fr = []
      · subst hfr
        refine ⟨rfl, rfl, ?_⟩
        simpa [execute_query_plan, ha, hfa] using hnull
      · exfalso
        simp [execute_query_plan, ha, hfa, hfr] at hnull
        cases hnp : newPrimaryContext m df plan fr with
        | some e => simp [hnp] at hnull
        | none =>
          simp [hnp] at hnull
          exact hpre hnull

/-- Witness for C3: an unfiltered plan over an empty table nulls the
entity, and the conclusion identifies that path. -/
theorem only_empty_no_candidate_path_clears_primary_entity_witness :
    planNoFilters.is_answerable = true ∧
      filterAll sampleMap emptyDF.cols emptyDF.rows planNoFilters.filters = .ok [] ∧
      candidateOf planNoFilters = none :=
  only_empty_no_candidate_path_clears_primary_entity emptyDF sampleMap planNoFilters
    sampleCtx (by decide) (by decide)

/-- C4: for an answerable `filter_and_list` plan whose filters leave a
non-empty table, if the alias map maps `script_name_conceptual` to a
(truthy) column of the table and that column holds exactly one distinct
non-missing value across the filtered rows, the primary entity afterwards
is that script — regardless of any first-filter candidate, which it
outranks — and the plan is stored as last successful plan. -/
theorem single_script_result_anchors_primary_entity
    (df : DF) (m : ColumnMap) (plan : Plan) (ctx : Ctx) (fr : List Row) (a : String) (c : Cell)
    (ha : plan.is_answerable = true)
    (hop : plan.operation = some "filter_and_list")
    (hfa : filterAll m df.cols df.rows plan.filters = .ok fr)
    (hfr : fr ≠ [])
    (hsc : List.lookup "script_name_conceptual" m = some a)
    (hane : a ≠ "")
    (hain : a ∈ df.cols)
    (huniq : pdUnique (nonMissing (colCells fr a)) = [c]) :
    (execute_query_plan (some df) (some m) plan ctx).2 =
      ⟨some plan, some ⟨"script_name_conceptual", Val.vstr (cellToStr c)⟩⟩ := by
  have hnp : newPrimaryContext m df plan fr =
      some ⟨"script_name_conceptual", Val.vstr (cellToStr c)⟩ := by
    simp [newPrimaryContext, hop, hsc, hane, hain, huniq]
  simp [execute_query_plan, ha, hfa, hfr, hnp]

/-- Witness for C4: the exact-match plan isolates the `ScriptX` row. -/
theorem single_script_result_anchors_primary_entity_witness :
    (execute_query_plan (some sampleDF) (some sampleMap) planExact sampleCtx).2 =
      ⟨some planExact, some ⟨"script_name_conceptual", Val.vstr (cellToStr (Cell.cstr "ScriptX"))⟩⟩ :=
  single_script_result_anchors_primary_entity sampleDF sampleMap planExact sampleCtx
    [[("FormName", Cell.cstr "Patient Demographics"), ("ScriptName", Cell.cstr "ScriptX")]]
    "ScriptName" (Cell.cstr "ScriptX") rfl rfl (by decide) (by decide) (by decide)
    (by decide) (by decide) (by decide)

/-- C5 counterexample: the claim "a missing/NaN cell is never kept by a
`contains` filter" is false.  Concretely, a row whose `FormName` cell is
missing is kept by `contains` with the filter value "nan": `astype(str)`
has turned the missing cell into the text "nan" before the comparison
(the source's `na=False` is dead at that point). -/
theorem missing_cell_matches_contains_nan_counterexample :
    applyFilter sampleMap ["FormName"] [[("FormName", Cell.cnone)]]
      ⟨some "form_name_conceptual", some "contains", Val.vstr "nan"⟩ =
      .ok [[("FormName", Cell.cnone)]]
    ∧ getCell [("FormName", Cell.cnone)] "FormName" = Cell.cnone := by decide

/-- C5 amended: missing cells are coerced to the text "nan" before the
comparison; under `contains` a row with a missing cell in the resolved
column is kept iff the lower-cased filter value occurs in "nan", and under
`exact` iff the filter value lower-cases to "nan"; present cells compare
case-insensitively on their text form (the filter keeps exactly the rows
satisfying `rowMatches`). -/
theorem missing_cells_compare_as_nan_text
    (m : ColumnMap) (cols : List String) (rows : List Row) (f : QFilter) (a : String) (r : Row)
    (hres : f.column_conceptual_name.bind (fun c => List.lookup c m) = some a)
    (hane : a ≠ "")
    (hin : a ∈ cols)
    (hval : clean_filter_value f.value ≠ Val.vnone)
    (hr : r ∈ rows)
    (hcell : getCell r a = Cell.cnone) :
    (effMatchType f = "contains" →
      applyFilter m cols rows f =
        .ok (rows.filter (fun row => rowMatches "contains" a (clean_filter_value f.value) row))
      ∧ (r ∈ rows.filter (fun row => rowMatches "contains" a (clean_filter_value f.value) row)
          ↔ strContainsCI "nan" (valToStr (clean_filter_value f.value)) = true))
    ∧ (effMatchType f = "exact" →
      applyFilter m cols rows f =
        .ok (rows.filter (fun row => rowMatches "exact" a (clean_filter_value f.value) row))
      ∧ (r ∈ rows.filter (fun row => rowMatches "exact" a (clean_filter_value f.value) row)
          ↔ pyLower (valToStr (clean_filter_value f.value)) = "nan")) := by
  constructor
  · intro hmt
    constructor
    · simp [applyFilter, hres, hane, hin, hval, hmt]
    · rw [List.mem_filter]
      simp only [hr, true_and, rowMatches, hcell]
      rw [if_pos trivial]
      have hn : cellToStr Cell.cnone = "nan" := rfl
      rw [hn]
      rw [if_neg (by decide)]
  · intro hmt
    constructor
    · simp [applyFilter, hres, hane, hin, hval, hmt]
    · rw [List.mem_filter]
      simp only [hr, true_and, rowMatches, hcell]
      rw [if_pos trivial]
      have hn : pyLower (cellToStr Cell.cnone) = "nan" := by decide
      rw [hn, beq_iff_eq]
      exact eq_comm

/-- Witness for the amended C5 at a concrete missing-cell row and the
filter value "nan" under `contains`. -/
theorem missing_cells_compare_as_nan_text_witness :
    applyFilter sampleMap ["FormName"] [[("FormName", Cell.cnone)]]
        ⟨some "form_name_conceptual", some "contains", Val.vstr "nan"⟩ =
      .ok ([[("FormName", Cell.cnone)]].filter (fun row =>
        rowMatches "contains" "FormName"
          (clean_filter_value (Val.vstr "nan")) row))
    ∧ ([("FormName", Cell.cnone)] ∈ ([[("FormName", Cell.cnone)]].filter (fun row =>
        rowMatches "contains" "FormName"
          (clean_filter_value (Val.vstr "nan")) row))
        ↔ strContainsCI "nan" (valToStr (clean_filter_value (Val.vstr "nan"))) = true) :=
  (missing_cells_compare_as_nan_text sampleMap ["FormName"] [[("FormName", Cell.cnone)]]
    ⟨some "form_name_conceptual", some "contains", Val.vstr "nan"⟩ "FormName"
    [("FormName", Cell.cnone)] (by decide) (by decide) (by decide) (by decide)
    (by decide) (by decide)).1 (by decide)

/-- C6 counterexample: a filter whose conceptual column is unmapped AND
whose match_type is unknown fails with the UnsupportedMatchType error, not
with ColumnNotMapped — the source checks the match type first
(src/app.py:317-330), so ColumnNotMapped does NOT take precedence. -/
theorem unsupported_match_type_precedes_column_not_mapped :
    applyFilter sampleMap ["FormName"] [[("FormName", Cell.cstr "x")]]
      ⟨some "bogus", some "weird", Val.vstr "x"⟩ =
      .error (.unsupportedMatchType "weird")
    ∧ FilterErr.unsupportedMatchType "weird" ≠ FilterErr.columnNotMapped (some "bogus") := by
  decide

/-- C6 amended: a filter whose conceptual name does not resolve through the
alias map fails with ColumnNotMapped when its match type is supported; when
the match type is also unknown, the UnsupportedMatchType failure takes
precedence; and any filter failure aborts the answerable plan with exactly
that text error, leaving both context pieces unchanged. -/
theorem column_not_mapped_failure_behavior
    (m : ColumnMap) (cols : List String) (rows : List Row) (f : QFilter)
    (hun : f.column_conceptual_name.bind (fun c => List.lookup c m) = none) :
    ((effMatchType f = "exact" ∨ effMatchType f = "contains" ∨ effMatchType f = "not_exact") →
      applyFilter m cols rows f = .error (.columnNotMapped f.column_conceptual_name))
    ∧ (¬ (effMatchType f = "exact" ∨ effMatchType f = "contains" ∨ effMatchType f = "not_exact") →
      applyFilter m cols rows f = .error (.unsupportedMatchType (effMatchType f)))
    ∧ (∀ (df : DF) (plan : Plan) (ctx : Ctx) (e : FilterErr), plan.is_answerable = true →
        filterAll m df.cols df.rows plan.filters = .error e →
        execute_query_plan (some df) (some m) plan ctx = (.text (errText e), ctx)) := by
  refine ⟨?_, ?_, ?_⟩
  · intro hmt
    simp [applyFilter, hun, hmt]
  · intro hmt
    simp [applyFilter, hmt]
  · intro df plan ctx e ha hfa
    simp [execute_query_plan, ha, hfa]

/-- Witness for the amended C6: the unmapped column `bogus` with a valid
match type yields the ColumnNotMapped error, and the whole plan aborts
with that text, context unchanged. -/
theorem column_not_mapped_failure_behavior_witness :
    applyFilter sampleMap sampleDF.cols sampleDF.rows filterBogusExact =
      .error (.columnNotMapped (some "bogus"))
    ∧ execute_query_plan (some sampleDF) (some sampleMap) planBogus sampleCtx =
      (.text (errText (.columnNotMapped (some "bogus"))), sampleCtx) :=
  ⟨(column_not_mapped_failure_behavior sampleMap sampleDF.cols sampleDF.rows
      filterBogusExact (by decide)).1 (by decide),
   (column_not_mapped_failure_behavior sampleMap sampleDF.cols sampleDF.rows
      filterBogusExact (by decide)).2.2 sampleDF planBogus sampleCtx
      (.columnNotMapped (some "bogus")) rfl (by decide)⟩

/-- C7: every executor reply is text-kind or table-kind, and a successful
`filter_and_list` over a non-empty filtered table with usable display
columns returns the table-kind result: the resolved display header and the
projected, deduplicated row grid. -/
theorem results_are_text_or_table :
    (∀ (dfOpt : Option DF) (mOpt : Option ColumnMap) (plan : Plan) (ctx : Ctx),
      (∃ s, (execute_query_plan dfOpt mOpt plan ctx).1 = .text s) ∨
      (∃ hd rs, (execute_query_plan dfOpt mOpt plan ctx).1 = .table hd rs))
    ∧ (∀ (df : DF) (m : ColumnMap) (plan : Plan) (ctx : Ctx) (fr : List Row),
        plan.is_answerable = true → plan.operation = some "filter_and_list" →
        filterAll m df.cols df.rows plan.filters = .ok fr → fr ≠ [] →
        displayActualCols m df plan fr ≠ [] →
        (execute_query_plan (some df) (some m) plan ctx).1 =
          .table (displayActualCols m df plan fr)
            (pdUnique (fr.map (fun r => (displayActualCols m df plan fr).map
              (fun col => getCell r col))))) := by
  constructor
  · intro dfOpt mOpt plan ctx
    cases hq : (execute_query_plan dfOpt mOpt plan ctx).1 with
    | text s => exact Or.inl ⟨s, rfl⟩
    | table hd rs => exact Or.inr ⟨hd, rs, rfl⟩
  · intro df m plan ctx fr ha hop hfa hfr hdc
    simp [execute_query_plan, ha, hfa, hfr]
    simp [runOperation, hop, hfr, hdc]

/-- Witness for C7 at the exact-match sample plan. -/
theorem results_are_text_or_table_witness :
    (execute_query_plan (some sampleDF) (some sampleMap) planExact sampleCtx).1 =
      .table (displayActualCols sampleMap sampleDF planExact
          [[("FormName", Cell.cstr "Patient Demographics"), ("ScriptName", Cell.cstr "ScriptX")]])
        (pdUnique ([[("FormName", Cell.cstr "Patient Demographics"),
            ("ScriptName", Cell.cstr "ScriptX")]].map (fun r =>
          (displayActualCols sampleMap sampleDF planExact
            [[("FormName", Cell.cstr "Patient Demographics"),
              ("ScriptName", Cell.cstr "ScriptX")]]).map (fun col => getCell r col)))) :=
  results_are_text_or_table.2 sampleDF sampleMap planExact sampleCtx
    [[("FormName", Cell.cstr "Patient Demographics"), ("ScriptName", Cell.cstr "ScriptX")]]
    rfl rfl (by decide) (by decide) (by decide)

/-- C8: for an answerable `list_unique_values` plan reaching dispatch (the
filtered table is non-empty), the target conceptual column is resolved
against the original table's columns, failing with a text error when
unmapped (or when the mapped name is untruthy or absent from those
columns); on success the values come from the filtered rows exactly when
the plan supplied filters, else from the full table, and the reply is the
sorted, deduplicated, non-missing stringified values joined by newlines
after the fixed header. -/
theorem list_unique_values_behavior
    (df : DF) (m : ColumnMap) (plan : Plan) (ctx : Ctx) (fr : List Row)
    (ha : plan.is_answerable = true)
    (hop : plan.operation = some "list_unique_values")
    (hfa : filterAll m df.cols df.rows plan.filters = .ok fr)
    (hfr : fr ≠ []) :
    (∀ a, plan.list_unique_target_conceptual.bind (fun c => List.lookup c m) = some a →
      a ≠ "" → a ∈ df.cols →
      (execute_query_plan (some df) (some m) plan ctx).1 =
        .text ("Unique values for '" ++ a ++ "':\n" ++ String.intercalate "\n"
          (pySorted ((pdUnique (nonMissing
            (colCells (if plan.filters = [] then df.rows else fr) a))).map cellToStr))))
    ∧ (plan.list_unique_target_conceptual.bind (fun c => List.lookup c m) = none →
        (execute_query_plan (some df) (some m) plan ctx).1 =
          .text ("List Unique Error: Target column '" ++
            optShow plan.list_unique_target_conceptual ++ "' not mapped."))
    ∧ (∀ a, plan.list_unique_target_conceptual.bind (fun c => List.lookup c m) = some a →
        (a = "" ∨ a ∉ df.cols) →
        (execute_query_plan (some df) (some m) plan ctx).1 =
          .text ("List Unique Error: Target column '" ++
            optShow plan.list_unique_target_conceptual ++ "' not mapped.")) := by
  have hexec : (execute_query_plan (some df) (some m) plan ctx).1 =
      runOperation df m plan fr := by
    simp [execute_query_plan, ha, hfa, hfr]
  refine ⟨?_, ?_, ?_⟩
  · intro a hra hane hain
    rw [hexec]
    by_cases hpf : plan.filters = []
    · have hdf : df.rows = fr := by
        have := hfa
        rw [hpf] at this
        simpa [filterAll] using this
      simp [runOperation, hop, hra, hane, hain, hpf, hdf, hfr]
    · simp [runOperation, hop, hra, hane, hain, hpf, hfr]
  · intro hra
    rw [hexec]
    simp [runOperation, hop, hra]
  · intro a hra hbad
    rw [hexec]
    rcases hbad with hae | hnotin
    · simp [runOperation, hop, hra, hae]
    · simp [runOperation, hop, hra, hnotin]

/-- Witness for C8: listing unique scripts of the sample table without
filters produces the sorted newline-joined script names. -/
theorem list_unique_values_behavior_witness :
    (execute_query_plan (some sampleDF) (some sampleMap) planListUnique sampleCtx).1 =
      .text "Unique values for 'ScriptName':\nS1\nS2\nScriptX" := by
  have h := (list_unique_values_behavior sampleDF sampleMap planListUnique sampleCtx
    sampleDF.rows rfl rfl (by decide) (by decide)).1 "ScriptName" (by decide) (by decide)
    (by decide)
  exact h.trans (by decide)

/-- C9: `clean_filter_value` passes non-string values through unchanged;
on strings it lower-cases and trims, then removes exactly the first
matching suffix among " form", " note", " script" (tested in that fixed
order, at most one removed — "a note form" keeps its " note"); a string
matching no suffix comes back merely lower-cased and trimmed. -/
theorem clean_filter_value_spec :
    (∀ n : Int, clean_filter_value (Val.vnum n) = Val.vnum n)
    ∧ clean_filter_value Val.vnone = Val.vnone
    ∧ clean_filter_value (Val.vstr "phd form") = Val.vstr "phd"
    ∧ clean_filter_value (Val.vstr "special use note") = Val.vstr "special use"
    ∧ clean_filter_value (Val.vstr "a note form") = Val.vstr "a note"
    ∧ (∀ s : String, pyEndsWith (pyTrim (pyLower s)) " form" = false →
        pyEndsWith (pyTrim (pyLower s)) " note" = false →
        pyEndsWith (pyTrim (pyLower s)) " script" = false →
        clean_filter_value (Val.vstr s) = Val.vstr (pyTrim (pyLower s))) := by
  refine ⟨fun n => rfl, rfl, by decide, by decide, by decide, ?_⟩
  intro s h1 h2 h3
  simp [clean_filter_value, h1, h2, h3]

/-- Witness for C9's no-suffix case at a concrete mixed-case string. -/
theorem clean_filter_value_spec_witness :
    clean_filter_value (Val.vstr " Hello World ") = Val.vstr (pyTrim (pyLower " Hello World ")) :=
  clean_filter_value_spec.2.2.2.2.2 " Hello World " (by decide) (by decide) (by decide)

/-- C10: a filter that omits `match_type` entirely is not rejected with an
UnsupportedMatchType failure; the executor silently defaults the missing
field to "contains" (case-insensitive substring matching), behaving
identically to the same filter with `match_type = "contains"`. -/
theorem absent_match_type_defaults_to_contains
    (m : ColumnMap) (cols : List String) (rows : List Row) (f : QFilter)
    (h : f.match_type = none) :
    applyFilter m cols rows f =
      applyFilter m cols rows ⟨f.column_conceptual_name, some "contains", f.value⟩
    ∧ ∀ s, applyFilter m cols rows f ≠ .error (FilterErr.unsupportedMatchType s) := by
  have hmt : effMatchType f = "contains" := by
    simp only [effMatchType, h]
    decide
  have hmt2 : effMatchType ⟨f.column_conceptual_name, some "contains", f.value⟩ =
      "contains" := by
    dsimp only [effMatchType]
    decide
  constructor
  · simp [applyFilter, hmt, hmt2]
  · intro s heq
    simp only [applyFilter, hmt] at heq
    rw [if_neg (by decide)] at heq
    cases hres : f.column_conceptual_name.bind (fun c => List.lookup c m) with
    | none => simp [hres] at heq
    | some a =>
      simp only [hres] at heq
      by_cases hae : a = ""
      · simp [hae] at heq
      · rw [if_neg hae] at heq
        by_cases hv : clean_filter_value f.value = Val.vnone
        · simp [hv] at heq
        · rw [if_neg hv] at heq
          by_cases hin : a ∈ cols
          · simp [hin] at heq
          · simp [hin] at heq

/-- Witness for C10: a concrete filter lacking `match_type` filters like
its `contains` twin and never reports an unsupported match type. -/
theorem absent_match_type_defaults_to_contains_witness :
    applyFilter sampleMap sampleDF.cols sampleDF.rows
        ⟨some "form_name_conceptual", none, Val.vstr "progress"⟩ =
      applyFilter sampleMap sampleDF.cols sampleDF.rows
        ⟨some "form_name_conceptual", some "contains", Val.vstr "progress"⟩
    ∧ applyFilter sampleMap sampleDF.cols sampleDF.rows
        ⟨some "form_name_conceptual", none, Val.vstr "progress"⟩ ≠
      .error (FilterErr.unsupportedMatchType "contains") :=
  ⟨(absent_match_type_defaults_to_contains sampleMap sampleDF.cols sampleDF.rows
      ⟨some "form_name_conceptual", none, Val.vstr "progress"⟩ rfl).1,
   (absent_match_type_defaults_to_contains sampleMap sampleDF.cols sampleDF.rows
      ⟨some "form_name_conceptual", none, Val.vstr "progress"⟩ rfl).2 "contains"⟩
